import Mathlib

set_option maxRecDepth 100000

/-!
Verification of the serverless contact-form handler (`lambda_function.py`).

The handler receives an API-Gateway event, parses the JSON body of the
contact form, renders an HTML and a plain-text email, and performs one
synchronous `send_email` call against Amazon SES.  The development below is
a shallow embedding of that handler:

* JSON values produced by Python's `json.loads` are the inductive `Json`
  (numeric literals are modelled as integers; no claim touches floats).
* The external collaborators are modelled at their interfaces:
  - `json.loads` (standard library): its outcome on the raw body string is
    part of the input, `Event.body : Option (Except Unit Json)` — `none`
    for an absent/`None` body, `Except.error ()` when `json.loads` raises
    (empty string, malformed JSON), `Except.ok j` for a parsed value `j`;
  - the SES client (`boto3`): a function `SendEmailRequest → SesResult`
    passed to the handler, and the handler's result is paired with the
    list of `send_email` calls it performed.
* Python exceptions are modelled by the `Option`/sum structure of the
  embedding; every raise inside the `try` block lands in one of the two
  `except` arms exactly as in the source.
-/

/-- A JSON value as produced by Python's `json.loads` (numbers restricted
to integers; the handler never computes with numeric fields). -/
inductive Json where
  | null : Json
  | bool (b : Bool) : Json
  | num (n : Int) : Json
  | str (s : String) : Json
  | arr (elems : List Json) : Json
  | obj (members : List (String × Json)) : Json

/-- Whether a JSON value is a string. -/
def Json.isStr : Json → Bool
  | Json.str _ => true
  | _ => false

/-- Whether a JSON value is an object (a Python `dict`). -/
def Json.isObj : Json → Bool
  | Json.obj _ => true
  | _ => false

/-- Python's `dict.get(key, dflt)` on the object produced by `json.loads`.
`json.loads` keeps the last occurrence of a duplicated key, so lookup is
last-binding-wins. -/
def dictGet (members : List (String × Json)) (key : String) (dflt : Json) : Json :=
  match members with
  | [] => dflt
  | (k, v) :: rest => dictGet rest key (if k == key then v else dflt)

/-- Whether a key occurs in the object. -/
def hasKey (members : List (String × Json)) (key : String) : Bool :=
  members.any (fun kv => kv.1 == key)

/-- One escaped character of CPython's `repr` of a string, for quote
character `q` (backslash, the quote, and the common control characters;
finer escaping of exotic characters is irrelevant to the handler, whose
observable behavior only ever renders string-valued fields). -/
def pyReprStrEscape (q : Char) (c : Char) : String :=
  if c = '\\' then "\\\\"
  else if c = q then "\\" ++ String.singleton q
  else if c = '\n' then "\\n"
  else if c = '\r' then "\\r"
  else if c = '\t' then "\\t"
  else String.singleton c

/-- CPython's `repr` of a string: single quotes, switching to double quotes
when the string contains a single quote but no double quote. -/
def pyReprStr (s : String) : String :=
  let q : Char := if s.data.contains (Char.ofNat 39) && !(s.data.contains '"') then '"'
                  else Char.ofNat 39
  String.singleton q ++ String.join (s.data.map (pyReprStrEscape q)) ++ String.singleton q

mutual

/-- Python's `str()` of a `json.loads` value, as used by f-string
interpolation (`{name}`, `{email}`, `{subject}`). -/
def pyStr : Json → String
  | Json.null => "None"
  | Json.bool true => "True"
  | Json.bool false => "False"
  | Json.num n => toString n
  | Json.str s => s
  | Json.arr elems => "[" ++ String.intercalate ", " (pyReprList elems) ++ "]"
  | Json.obj members => "\x7b" ++ String.intercalate ", " (pyReprObj members) ++ "\x7d"

/-- Python's `repr()` of a `json.loads` value (used for container elements). -/
def pyRepr : Json → String
  | Json.null => "None"
  | Json.bool true => "True"
  | Json.bool false => "False"
  | Json.num n => toString n
  | Json.str s => pyReprStr s
  | Json.arr elems => "[" ++ String.intercalate ", " (pyReprList elems) ++ "]"
  | Json.obj members => "\x7b" ++ String.intercalate ", " (pyReprObj members) ++ "\x7d"

/-- `repr` of the elements of a Python list. -/
def pyReprList : List Json → List String
  | [] => []
  | v :: rest => pyRepr v :: pyReprList rest

/-- `repr` of the members of a Python dict. -/
def pyReprObj : List (String × Json) → List String
  | [] => []
  | (k, v) :: rest => (pyReprStr k ++ ": " ++ pyRepr v) :: pyReprObj rest

end

/-- Left-to-right non-overlapping replacement on character lists, with fuel
bounded by the length of the scanned list. -/
def pyReplaceFuel (pat rep : List Char) : Nat → List Char → List Char
  | _, [] => []
  | 0, s => s
  | Nat.succ fuel, c :: rest =>
    if pat ≠ [] && List.isPrefixOf pat (c :: rest) then
      rep ++ pyReplaceFuel pat rep fuel (List.drop (pat.length - 1) rest)
    else
      c :: pyReplaceFuel pat rep fuel rest

/-- Python's `str.replace(pat, rep)` for a non-empty pattern (the handler's
only use is `message.replace(os.linesep, '<br>')`). -/
def pyReplace (s pat rep : String) : String :=
  String.mk (pyReplaceFuel pat.data rep.data s.data.length s.data)

/-- `os.linesep` on the Linux platform hosting AWS Lambda. -/
def os_linesep : String := "\n"

/-- Lowercase hexadecimal digit. -/
def hexDigit (n : Nat) : Char :=
  if n < 10 then Char.ofNat (48 + n) else Char.ofNat (87 + n)

/-- Four lowercase hexadecimal digits, as in `json.dumps` unicode escapes. -/
def hex4 (n : Nat) : String :=
  String.mk [hexDigit (n / 4096 % 16), hexDigit (n / 256 % 16),
             hexDigit (n / 16 % 16), hexDigit (n % 16)]

/-- One escaped character of Python's `json.dumps` with its default
`ensure_ascii=True`: printable ASCII passes through, `"` and `\` and the
short control escapes are backslash-escaped, everything else becomes
`\uXXXX` (with surrogate pairs beyond the BMP). -/
def jsonEscapeChar (c : Char) : String :=
  if c = '"' then "\\\""
  else if c = '\\' then "\\\\"
  else if c = '\n' then "\\n"
  else if c = '\r' then "\\r"
  else if c = '\t' then "\\t"
  else if c = Char.ofNat 8 then "\\b"
  else if c = Char.ofNat 12 then "\\f"
  else if 32 ≤ c.toNat && c.toNat ≤ 126 then String.singleton c
  else if c.toNat ≤ 65535 then "\\u" ++ hex4 c.toNat
  else "\\u" ++ hex4 (55296 + (c.toNat - 65536) / 1024)
       ++ "\\u" ++ hex4 (56320 + (c.toNat - 65536) % 1024)

/-- `json.dumps` string escaping. -/
def jsonEscape (s : String) : String := String.join (s.data.map jsonEscapeChar)

/-- Python's `json.dumps` on a flat dict of strings — the only shape the
handler ever serializes (its three error payloads and the success payload).
Default separators: `", "` between members and `": "` after each key. -/
def json_dumpsFlat (members : List (String × String)) : String :=
  "\x7b" ++ String.intercalate ", "
      (members.map fun kv => "\"" ++ jsonEscape kv.1 ++ "\": \"" ++ jsonEscape kv.2 ++ "\"")
    ++ "\x7d"

/-- The AWS region used to build the SES client; it does not influence the
handler's observable behavior. -/
def AWS_REGION : String := "us-east-1"

/-- The verified SES sender address (module-level constant). -/
def SENDER_EMAIL : String := "no-reply@yourdomain.com"

/-- The fixed recipient of contact-form submissions (module-level constant). -/
def RECIPIENT_EMAIL : String := "your-inbox@yourdomain.com"

/-- The `HTML_BODY` f-string of the handler: `name`, `email`, `subject`
interpolated as-is, `message` with `os.linesep` replaced by `<br>`.
Whitespace reproduces the source's triple-quoted literal exactly. -/
def HTML_BODY (name email subject message : String) : String :=
  "\n        <html>\n        <head></head>\n        <body>\n            <p>You have received a new contact form submission:</p>\n            <ul>\n                <li><strong>Name:</strong> "
  ++ name
  ++ "</li>\n                <li><strong>Email:</strong> "
  ++ email
  ++ "</li>\n            </ul>\n            <p><strong>Subject:</strong> "
  ++ subject
  ++ "</p>\n            <h3>Message:</h3>\n            <p>"
  ++ pyReplace message os_linesep "<br>"
  ++ "</p>\n        </body>\n        </html>\n        "

/-- The `TEXT_BODY` f-string of the handler: all four fields interpolated
verbatim.  Whitespace reproduces the source's triple-quoted literal exactly. -/
def TEXT_BODY (name email subject message : String) : String :=
  "\n        New Contact Form Submission:\n        Name: "
  ++ name
  ++ "\n        Email: "
  ++ email
  ++ "\n        Subject: "
  ++ subject
  ++ "\n        Message:\n        "
  ++ message
  ++ "\n        "

/-- The argument record of the one `ses_client.send_email(...)` call. -/
structure SendEmailRequest where
  toAddresses : List String
  htmlCharset : String
  htmlData : String
  textCharset : String
  textData : String
  subjectCharset : String
  subjectData : String
  source : String
  replyToAddresses : List String
deriving DecidableEq, Inhabited

/-- The outcome of one `send_email` call against the SES collaborator:
a response carrying `MessageId`, a raised `botocore` `ClientError`
carrying `e.response['Error']['Message']`, or any other raised exception. -/
inductive SesResult where
  | ok (messageId : String) : SesResult
  | clientError (errorMessage : String) : SesResult
  | otherError : SesResult
deriving DecidableEq

/-- The API-Gateway event, abstracted to what the handler reads from it:
`none` models `event.get('body') is None` (key absent or `null`); for a
present body string, the field carries the outcome of `json.loads` on it —
`Except.error ()` when parsing raises (empty string, malformed JSON),
`Except.ok j` when it returns the value `j`. -/
structure Event where
  body : Option (Except Unit Json)

/-- The handler's return dict: `statusCode`, the `headers` dict in literal
order (`[]` when the source omits the key), and the `json.dumps`-serialized
`body` string. -/
structure HandlerResponse where
  statusCode : Nat
  headers : List (String × String)
  body : String
deriving DecidableEq

/-- The header dict shared by the 200 and both 500 responses. -/
def corsHeaders : List (String × String) :=
  [("Access-Control-Allow-Origin", "*"), ("Content-Type", "application/json")]

/-- The 400 response for a missing body; the source's return dict has no
`headers` key. -/
def noBodyResponse : HandlerResponse :=
  { statusCode := 400
    headers := []
    body := json_dumpsFlat [("error", "No form data submitted.")] }

/-- The 500 response of the `except ClientError` arm. -/
def sesFailureResponse : HandlerResponse :=
  { statusCode := 500
    headers := corsHeaders
    body := json_dumpsFlat [("error", "Failed to send email. Check Lambda logs.")] }

/-- The 500 response of the `except Exception` arm. -/
def internalErrorResponse : HandlerResponse :=
  { statusCode := 500
    headers := corsHeaders
    body := json_dumpsFlat [("error", "Internal server error.")] }

/-- The 200 response built after a successful send, with
`response['MessageId']`. -/
def successResponse (messageId : String) : HandlerResponse :=
  { statusCode := 200
    headers := corsHeaders
    body := json_dumpsFlat [("message", "Email sent successfully!"), ("message_id", messageId)] }

/-- Field extraction and construction of the `send_email` arguments from the
parsed body.  `none` models a Python exception raised before the SES call
reaches the network, caught by the `except Exception` arm:
* a non-`dict` parse result raises `AttributeError` at `form_data.get`;
* a non-string `message` raises `AttributeError` at `message.replace`;
* a non-string `email` raises `botocore`'s parameter validation error at
  `send_email` (client-side, before any call is made). -/
def sendEmailParams (form_data : Json) : Option SendEmailRequest :=
  match form_data with
  | Json.obj members =>
    let name := dictGet members "name" (Json.str "N/A")
    let email := dictGet members "email" (Json.str "N/A")
    let subject := dictGet members "subject" (Json.str "N/A")
    let message := dictGet members "message" (Json.str "N/A")
    match message, email with
    | Json.str messageStr, Json.str emailStr =>
      some
        { toAddresses := [RECIPIENT_EMAIL]
          htmlCharset := "UTF-8"
          htmlData := HTML_BODY (pyStr name) (pyStr email) (pyStr subject) messageStr
          textCharset := "UTF-8"
          textData := TEXT_BODY (pyStr name) (pyStr email) (pyStr subject) messageStr
          subjectCharset := "UTF-8"
          subjectData := "New Contact: " ++ pyStr subject
          source := SENDER_EMAIL
          replyToAddresses := [emailStr] }
    | _, _ => none
  | _ => none

/-- The `lambda_handler` of `lambda_function.py`.  The SES collaborator is
the function `ses`; the result pairs the returned response dict with the
list of `send_email` calls performed during the invocation. -/
def lambda_handler (ses : SendEmailRequest → SesResult) (event : Event) (context : Unit) :
    HandlerResponse × List SendEmailRequest :=
  match event.body with
  | none => (noBodyResponse, [])
  | some (Except.error _) => (internalErrorResponse, [])
  | some (Except.ok form_data) =>
    match sendEmailParams form_data with
    | none => (internalErrorResponse, [])
    | some req =>
      match ses req with
      | SesResult.ok messageId => (successResponse messageId, [req])
      | SesResult.clientError _ => (sesFailureResponse, [req])
      | SesResult.otherError => (internalErrorResponse, [req])

/-- Whether `needle` occurs as a contiguous run of `hay`. -/
def listContainsSeq (needle : List Char) : List Char → Bool
  | [] => needle.isEmpty
  | c :: rest => List.isPrefixOf needle (c :: rest) || listContainsSeq needle rest

/-- Whether the string `needle` is a contiguous substring of `hay`. -/
def strContains (hay needle : String) : Bool := listContainsSeq needle.data hay.data


/-- Looking up a key that does not occur in the object yields the default. -/
theorem dictGet_absent (members : List (String × Json)) (key : String) (dflt : Json)
    (h : hasKey members key = false) : dictGet members key dflt = dflt := by
  induction members generalizing dflt with
  | nil => rfl
  | cons kv rest ih =>
    obtain ⟨k, v⟩ := kv
    have h' : ((k == key) || hasKey rest key) = false := h
    rw [Bool.or_eq_false_iff] at h'
    obtain ⟨h1, h2⟩ := h'
    show dictGet rest key (if k == key then v else dflt) = dflt
    rw [h1]
    simpa using ih dflt h2

/-- Looking up a key whose last binding is `(key, v)` yields `v`, whatever
the default. -/
theorem dictGet_last (members : List (String × Json)) (key : String) (v dflt : Json) :
    dictGet (members ++ [(key, v)]) key dflt = v := by
  induction members generalizing dflt with
  | nil => simp [dictGet]
  | cons kv rest ih =>
    obtain ⟨k, w⟩ := kv
    exact ih _

/-- Unfolding of the handler on a successfully parsed body. -/
theorem lambda_handler_parsed (ses : SendEmailRequest → SesResult) (j : Json) (context : Unit) :
    lambda_handler ses { body := some (Except.ok j) } context =
      (match sendEmailParams j with
       | none => (internalErrorResponse, [])
       | some req =>
         match ses req with
         | SesResult.ok messageId => (successResponse messageId, [req])
         | SesResult.clientError _ => (sesFailureResponse, [req])
         | SesResult.otherError => (internalErrorResponse, [req])) := rfl

/-- When the field extraction succeeds, the handler's result is decided by
the SES collaborator's answer on the one request it builds. -/
theorem lambda_handler_sends (ses : SendEmailRequest → SesResult) (j : Json)
    (req : SendEmailRequest) (context : Unit) (hreq : sendEmailParams j = some req) :
    lambda_handler ses { body := some (Except.ok j) } context =
      (match ses req with
       | SesResult.ok messageId => (successResponse messageId, [req])
       | SesResult.clientError _ => (sesFailureResponse, [req])
       | SesResult.otherError => (internalErrorResponse, [req])) := by
  rw [lambda_handler_parsed, hreq]

/-- When the field extraction raises, the handler lands in the
`except Exception` arm without calling SES. -/
theorem lambda_handler_noParams (ses : SendEmailRequest → SesResult) (j : Json)
    (context : Unit) (h : sendEmailParams j = none) :
    lambda_handler ses { body := some (Except.ok j) } context =
      (internalErrorResponse, []) := by
  rw [lambda_handler_parsed, h]

/-- A dispatching invocation performs exactly the one call it built,
whatever the SES collaborator answers. -/
theorem lambda_handler_trace (ses : SendEmailRequest → SesResult) (j : Json)
    (req : SendEmailRequest) (context : Unit) (hreq : sendEmailParams j = some req) :
    (lambda_handler ses { body := some (Except.ok j) } context).2 = [req] := by
  rw [lambda_handler_sends ses j req context hreq]
  cases ses req <;> rfl

/-- C1: a request whose envelope carries no body yields status 400 with body
exactly the serialized error payload with message "No form data submitted.",
an empty header set (in particular no CORS header), and no call to the SES
collaborator. -/
theorem claim1_no_body (ses : SendEmailRequest → SesResult) (context : Unit) :
    lambda_handler ses { body := none } context =
      ({ statusCode := 400, headers := [],
         body := "\x7b\"error\": \"No form data submitted.\"\x7d" }, []) := rfl

/-- C2: when the parsed body is a JSON object, the field extraction builds a
request, and the SES collaborator answers that request with identifier
`mid`, the handler returns 200 with the CORS and content-type headers and
the serialized success payload carrying `mid` under message_id, having made
exactly that one call. -/
theorem claim2_provider_success (ses : SendEmailRequest → SesResult) (context : Unit)
    (members : List (String × Json)) (req : SendEmailRequest) (mid : String)
    (hreq : sendEmailParams (Json.obj members) = some req)
    (hses : ses req = SesResult.ok mid) :
    lambda_handler ses { body := some (Except.ok (Json.obj members)) } context =
      ({ statusCode := 200,
         headers := [("Access-Control-Allow-Origin", "*"), ("Content-Type", "application/json")],
         body := json_dumpsFlat [("message", "Email sent successfully!"), ("message_id", mid)] },
       [req]) := by
  rw [lambda_handler_sends ses _ req context hreq, hses]
  rfl

theorem claim2_provider_success_witness :
    lambda_handler (fun _ => SesResult.ok "id-1")
        { body := some (Except.ok (Json.obj [("name", Json.str "Bob")])) } () =
      ({ statusCode := 200,
         headers := [("Access-Control-Allow-Origin", "*"), ("Content-Type", "application/json")],
         body := json_dumpsFlat [("message", "Email sent successfully!"), ("message_id", "id-1")] },
       [(sendEmailParams (Json.obj [("name", Json.str "Bob")])).get!]) :=
  claim2_provider_success (fun _ => SesResult.ok "id-1") () [("name", Json.str "Bob")]
    ((sendEmailParams (Json.obj [("name", Json.str "Bob")])).get!) "id-1" rfl rfl

/-- C3: when the SES collaborator fails the built request with a
`ClientError` carrying any message whatsoever, the handler returns 500 with
the CORS header present and body exactly the serialized payload with
message "Failed to send email. Check Lambda logs." — the provider's message
does not occur in the (constant) response. -/
theorem claim3_provider_failure (ses : SendEmailRequest → SesResult) (context : Unit)
    (members : List (String × Json)) (req : SendEmailRequest) (errorMessage : String)
    (hreq : sendEmailParams (Json.obj members) = some req)
    (hses : ses req = SesResult.clientError errorMessage) :
    lambda_handler ses { body := some (Except.ok (Json.obj members)) } context =
      ({ statusCode := 500,
         headers := [("Access-Control-Allow-Origin", "*"), ("Content-Type", "application/json")],
         body := "\x7b\"error\": \"Failed to send email. Check Lambda logs.\"\x7d" },
       [req]) := by
  rw [lambda_handler_sends ses _ req context hreq, hses]
  rfl

theorem claim3_provider_failure_witness :
    lambda_handler (fun _ => SesResult.clientError "Email address is not verified.")
        { body := some (Except.ok (Json.obj [("name", Json.str "Bob")])) } () =
      ({ statusCode := 500,
         headers := [("Access-Control-Allow-Origin", "*"), ("Content-Type", "application/json")],
         body := "\x7b\"error\": \"Failed to send email. Check Lambda logs.\"\x7d" },
       [(sendEmailParams (Json.obj [("name", Json.str "Bob")])).get!]) :=
  claim3_provider_failure (fun _ => SesResult.clientError "Email address is not verified.") ()
    [("name", Json.str "Bob")]
    ((sendEmailParams (Json.obj [("name", Json.str "Bob")])).get!)
    "Email address is not verified." rfl rfl

/-- A JSON value that the string test accepts is a string literal. -/
theorem isStr_exists (j : Json) (h : j.isStr = true) : ∃ s, j = Json.str s := by
  cases j with
  | str s => exact ⟨s, rfl⟩
  | null => exact absurd h (by simp [Json.isStr])
  | bool b => exact absurd h (by simp [Json.isStr])
  | num n => exact absurd h (by simp [Json.isStr])
  | arr elems => exact absurd h (by simp [Json.isStr])
  | obj members => exact absurd h (by simp [Json.isStr])

/-- C4: every failure other than the missing-body path and a recognized
`ClientError` is caught at the handler boundary and answered with 500, the
CORS header, and the serialized "Internal server error." payload: a body
whose parse raises, a parsed body on which field extraction raises (no call
is made), and any non-`ClientError` exception out of the SES call.  Every
invocation returns exactly one of the four response shapes — nothing
propagates uncaught. -/
theorem claim4_exception_boundary (ses : SendEmailRequest → SesResult) (event : Event)
    (context : Unit) :
    (∀ e, event.body = some (Except.error e) →
        lambda_handler ses event context = (internalErrorResponse, [])) ∧
    (∀ j, event.body = some (Except.ok j) → sendEmailParams j = none →
        lambda_handler ses event context = (internalErrorResponse, [])) ∧
    (∀ j req, event.body = some (Except.ok j) → sendEmailParams j = some req →
        ses req = SesResult.otherError →
        lambda_handler ses event context = (internalErrorResponse, [req])) ∧
    ((lambda_handler ses event context).1 = noBodyResponse ∨
     (lambda_handler ses event context).1 = sesFailureResponse ∨
     (lambda_handler ses event context).1 = internalErrorResponse ∨
     ∃ mid, (lambda_handler ses event context).1 = successResponse mid) := by
  obtain ⟨b⟩ := event
  refine ⟨?_, ?_, ?_, ?_⟩
  · intro e he
    have he' : b = some (Except.error e) := he
    subst he'
    rfl
  · intro j hj hn
    have hj' : b = some (Except.ok j) := hj
    subst hj'
    exact lambda_handler_noParams ses j context hn
  · intro j req hj hp hs
    have hj' : b = some (Except.ok j) := hj
    subst hj'
    rw [lambda_handler_sends ses j req context hp, hs]
  · cases b with
    | none => exact Or.inl rfl
    | some x =>
      cases x with
      | error e => exact Or.inr (Or.inr (Or.inl rfl))
      | ok j =>
        cases hp : sendEmailParams j with
        | none =>
          rw [lambda_handler_noParams ses j context hp]
          exact Or.inr (Or.inr (Or.inl rfl))
        | some req =>
          rw [lambda_handler_sends ses j req context hp]
          cases hs : ses req with
          | ok mid => exact Or.inr (Or.inr (Or.inr ⟨mid, rfl⟩))
          | clientError m => exact Or.inr (Or.inl rfl)
          | otherError => exact Or.inr (Or.inr (Or.inl rfl))

theorem claim4_exception_boundary_witness :
    lambda_handler (fun _ => SesResult.ok "id-2") { body := some (Except.error ()) } () =
      (internalErrorResponse, []) :=
  (claim4_exception_boundary (fun _ => SesResult.ok "id-2")
    { body := some (Except.error ()) } ()).1 () rfl

/-- C5: each of the four fields missing from the parsed object independently
defaults to the string "N/A"; and whenever the extracted email and message
values are strings — which absence guarantees, via the default — the field
extraction succeeds and the invocation proceeds to exactly one dispatch. -/
theorem claim5_missing_fields_default (ses : SendEmailRequest → SesResult) (context : Unit)
    (members : List (String × Json)) :
    (hasKey members "name" = false →
        dictGet members "name" (Json.str "N/A") = Json.str "N/A") ∧
    (hasKey members "email" = false →
        dictGet members "email" (Json.str "N/A") = Json.str "N/A") ∧
    (hasKey members "subject" = false →
        dictGet members "subject" (Json.str "N/A") = Json.str "N/A") ∧
    (hasKey members "message" = false →
        dictGet members "message" (Json.str "N/A") = Json.str "N/A") ∧
    ((dictGet members "email" (Json.str "N/A")).isStr = true →
     (dictGet members "message" (Json.str "N/A")).isStr = true →
     ∃ req, sendEmailParams (Json.obj members) = some req ∧
       (lambda_handler ses { body := some (Except.ok (Json.obj members)) } context).2 =
         [req]) := by
  refine ⟨dictGet_absent members "name" (Json.str "N/A"),
          dictGet_absent members "email" (Json.str "N/A"),
          dictGet_absent members "subject" (Json.str "N/A"),
          dictGet_absent members "message" (Json.str "N/A"), ?_⟩
  intro hEmail hMessage
  obtain ⟨emailStr, he⟩ := isStr_exists _ hEmail
  obtain ⟨messageStr, hm⟩ := isStr_exists _ hMessage
  cases hp : sendEmailParams (Json.obj members) with
  | some req => exact ⟨req, rfl, lambda_handler_trace ses _ req context hp⟩
  | none =>
    exfalso
    simp [sendEmailParams, hm, he] at hp

theorem claim5_missing_fields_default_witness :
    dictGet [] "name" (Json.str "N/A") = Json.str "N/A" ∧
    dictGet [] "email" (Json.str "N/A") = Json.str "N/A" ∧
    dictGet [] "subject" (Json.str "N/A") = Json.str "N/A" ∧
    dictGet [] "message" (Json.str "N/A") = Json.str "N/A" ∧
    (∃ req, sendEmailParams (Json.obj []) = some req ∧
      (lambda_handler (fun _ => SesResult.ok "id-4")
          { body := some (Except.ok (Json.obj [])) } ()).2 = [req]) :=
  ⟨(claim5_missing_fields_default (fun _ => SesResult.ok "id-4") () []).1 rfl,
   (claim5_missing_fields_default (fun _ => SesResult.ok "id-4") () []).2.1 rfl,
   (claim5_missing_fields_default (fun _ => SesResult.ok "id-4") () []).2.2.1 rfl,
   (claim5_missing_fields_default (fun _ => SesResult.ok "id-4") () []).2.2.2.1 rfl,
   (claim5_missing_fields_default (fun _ => SesResult.ok "id-4") () []).2.2.2.2 rfl rfl⟩

/-- C9: a body that is present but is not the encoding of a JSON object —
one whose parse raises (empty string or malformed JSON), or one parsing to
a null, boolean, number, string, or array — yields the 500
"Internal server error." response with no SES call; this path is distinct
from the 400 missing-body response. -/
theorem claim9_non_object_body (ses : SendEmailRequest → SesResult) (context : Unit) :
    (∀ e : Unit, lambda_handler ses { body := some (Except.error e) } context =
        (internalErrorResponse, [])) ∧
    (∀ j : Json, j.isObj = false →
        lambda_handler ses { body := some (Except.ok j) } context =
          (internalErrorResponse, [])) ∧
    internalErrorResponse =
      { statusCode := 500,
        headers := [("Access-Control-Allow-Origin", "*"), ("Content-Type", "application/json")],
        body := "\x7b\"error\": \"Internal server error.\"\x7d" } ∧
    noBodyResponse.statusCode = 400 := by
  refine ⟨fun e => rfl, ?_, rfl, rfl⟩
  intro j hj
  cases j with
  | obj members => exact absurd hj (by simp [Json.isObj])
  | null => exact lambda_handler_noParams ses _ context rfl
  | bool b => exact lambda_handler_noParams ses _ context rfl
  | num n => exact lambda_handler_noParams ses _ context rfl
  | str s => exact lambda_handler_noParams ses _ context rfl
  | arr elems => exact lambda_handler_noParams ses _ context rfl

theorem claim9_non_object_body_witness :
    lambda_handler (fun _ => SesResult.ok "id-3") { body := some (Except.error ()) } () =
      (internalErrorResponse, []) ∧
    (Json.num 5).isObj = false ∧
    lambda_handler (fun _ => SesResult.ok "id-3") { body := some (Except.ok (Json.num 5)) } () =
      (internalErrorResponse, []) :=
  ⟨(claim9_non_object_body (fun _ => SesResult.ok "id-3") ()).1 (),
   rfl,
   (claim9_non_object_body (fun _ => SesResult.ok "id-3") ()).2.1 (Json.num 5) rfl⟩

/-- Characterization of a successful field extraction: when the extracted
message and email values are the strings `messageStr` and `emailStr`, the
built request is exactly the record of the `send_email` call site. -/
theorem sendEmailParams_str (members : List (String × Json)) (messageStr emailStr : String)
    (hm : dictGet members "message" (Json.str "N/A") = Json.str messageStr)
    (he : dictGet members "email" (Json.str "N/A") = Json.str emailStr) :
    sendEmailParams (Json.obj members) =
      some
        { toAddresses := [RECIPIENT_EMAIL]
          htmlCharset := "UTF-8"
          htmlData := HTML_BODY (pyStr (dictGet members "name" (Json.str "N/A")))
                        (pyStr (dictGet members "email" (Json.str "N/A")))
                        (pyStr (dictGet members "subject" (Json.str "N/A"))) messageStr
          textCharset := "UTF-8"
          textData := TEXT_BODY (pyStr (dictGet members "name" (Json.str "N/A")))
                        (pyStr (dictGet members "email" (Json.str "N/A")))
                        (pyStr (dictGet members "subject" (Json.str "N/A"))) messageStr
          subjectCharset := "UTF-8"
          subjectData := "New Contact: " ++ pyStr (dictGet members "subject" (Json.str "N/A"))
          source := SENDER_EMAIL
          replyToAddresses := [emailStr] } := by
  simp only [sendEmailParams]
  rw [hm, he]

/-- A successful field extraction forces the extracted message and email
values to be strings. -/
theorem sendEmailParams_some_str (members : List (String × Json)) (req : SendEmailRequest)
    (h : sendEmailParams (Json.obj members) = some req) :
    ∃ messageStr emailStr,
      dictGet members "message" (Json.str "N/A") = Json.str messageStr ∧
      dictGet members "email" (Json.str "N/A") = Json.str emailStr := by
  cases hm : dictGet members "message" (Json.str "N/A") <;>
    cases he : dictGet members "email" (Json.str "N/A") <;>
      simp [sendEmailParams, hm, he] at h
  exact ⟨_, _, rfl, rfl⟩

/-- C6: on every dispatching invocation exactly one `send_email` call is
made, and the request carries: source equal to the configured sender,
destination the one-element list of the configured recipient, reply-to the
one-element list holding the submitted email value unvalidated, subject the
fixed prefix "New Contact: " followed by the rendered subject field, and
charset UTF-8 on the HTML body, the text body, and the subject. -/
theorem claim6_dispatch_parameters (ses : SendEmailRequest → SesResult) (context : Unit)
    (members : List (String × Json)) (req : SendEmailRequest)
    (hreq : sendEmailParams (Json.obj members) = some req) :
    (lambda_handler ses { body := some (Except.ok (Json.obj members)) } context).2 = [req] ∧
    req.source = SENDER_EMAIL ∧
    req.toAddresses = [RECIPIENT_EMAIL] ∧
    (∀ emailStr, dictGet members "email" (Json.str "N/A") = Json.str emailStr →
        req.replyToAddresses = [emailStr]) ∧
    req.subjectData = "New Contact: " ++ pyStr (dictGet members "subject" (Json.str "N/A")) ∧
    req.htmlCharset = "UTF-8" ∧ req.textCharset = "UTF-8" ∧ req.subjectCharset = "UTF-8" := by
  obtain ⟨messageStr, emailStr, hm, he⟩ := sendEmailParams_some_str members req hreq
  have hval := sendEmailParams_str members messageStr emailStr hm he
  rw [hreq] at hval
  have hr := Option.some.inj hval
  subst hr
  refine ⟨lambda_handler_trace ses _ _ context hreq, rfl, rfl, ?_, rfl, rfl, rfl, rfl⟩
  intro es hes
  rw [he] at hes
  injection hes with h
  rw [h]

/-- The concrete object used to instantiate C6. -/
def claim6Members : List (String × Json) :=
  [("email", Json.str "alice@example.com"), ("subject", Json.str "Offer"),
   ("message", Json.str "hello")]

theorem claim6_dispatch_parameters_witness :
    (lambda_handler (fun _ => SesResult.ok "id-5")
        { body := some (Except.ok (Json.obj claim6Members)) } ()).2 =
      [(sendEmailParams (Json.obj claim6Members)).get!] ∧
    (sendEmailParams (Json.obj claim6Members)).get!.source = SENDER_EMAIL ∧
    (sendEmailParams (Json.obj claim6Members)).get!.toAddresses = [RECIPIENT_EMAIL] ∧
    (∀ emailStr, dictGet claim6Members "email" (Json.str "N/A") = Json.str emailStr →
        (sendEmailParams (Json.obj claim6Members)).get!.replyToAddresses = [emailStr]) ∧
    (sendEmailParams (Json.obj claim6Members)).get!.subjectData =
      "New Contact: " ++ pyStr (dictGet claim6Members "subject" (Json.str "N/A")) ∧
    (sendEmailParams (Json.obj claim6Members)).get!.htmlCharset = "UTF-8" ∧
    (sendEmailParams (Json.obj claim6Members)).get!.textCharset = "UTF-8" ∧
    (sendEmailParams (Json.obj claim6Members)).get!.subjectCharset = "UTF-8" :=
  claim6_dispatch_parameters (fun _ => SesResult.ok "id-5") () claim6Members
    ((sendEmailParams (Json.obj claim6Members)).get!) rfl

/-- C8: on every dispatching invocation the one call carries an HTML body
interpolating the rendered name and email into the fixed list structure,
the rendered subject under the "Subject" label, and the message with every
platform line separator replaced by the line-break marker before
interpolation; and a plain-text body interpolating all four raw values
verbatim.  None of the interpolations escapes HTML: each value occurs
literally between the template constants. -/
theorem claim8_rendering_templates (ses : SendEmailRequest → SesResult) (context : Unit)
    (members : List (String × Json)) (req : SendEmailRequest) (messageStr : String)
    (hreq : sendEmailParams (Json.obj members) = some req)
    (hmsg : dictGet members "message" (Json.str "N/A") = Json.str messageStr) :
    (lambda_handler ses { body := some (Except.ok (Json.obj members)) } context).2 = [req] ∧
    req.htmlData =
      "\n        <html>\n        <head></head>\n        <body>\n            <p>You have received a new contact form submission:</p>\n            <ul>\n                <li><strong>Name:</strong> "
      ++ pyStr (dictGet members "name" (Json.str "N/A"))
      ++ "</li>\n                <li><strong>Email:</strong> "
      ++ pyStr (dictGet members "email" (Json.str "N/A"))
      ++ "</li>\n            </ul>\n            <p><strong>Subject:</strong> "
      ++ pyStr (dictGet members "subject" (Json.str "N/A"))
      ++ "</p>\n            <h3>Message:</h3>\n            <p>"
      ++ pyReplace messageStr os_linesep "<br>"
      ++ "</p>\n        </body>\n        </html>\n        " ∧
    req.textData =
      "\n        New Contact Form Submission:\n        Name: "
      ++ pyStr (dictGet members "name" (Json.str "N/A"))
      ++ "\n        Email: "
      ++ pyStr (dictGet members "email" (Json.str "N/A"))
      ++ "\n        Subject: "
      ++ pyStr (dictGet members "subject" (Json.str "N/A"))
      ++ "\n        Message:\n        "
      ++ messageStr
      ++ "\n        " := by
  obtain ⟨ms, es, hm, he⟩ := sendEmailParams_some_str members req hreq
  have hval := sendEmailParams_str members messageStr es hmsg he
  rw [hreq] at hval
  have hr := Option.some.inj hval
  subst hr
  exact ⟨lambda_handler_trace ses _ _ context hreq, rfl, rfl⟩

/-- The concrete object used to instantiate C8. -/
def claim8Members : List (String × Json) :=
  [("name", Json.str "Ann"), ("message", Json.str "x\ny")]

theorem claim8_rendering_templates_witness :
    (lambda_handler (fun _ => SesResult.otherError)
        { body := some (Except.ok (Json.obj claim8Members)) } ()).2 =
      [(sendEmailParams (Json.obj claim8Members)).get!] ∧
    (sendEmailParams (Json.obj claim8Members)).get!.htmlData =
      "\n        <html>\n        <head></head>\n        <body>\n            <p>You have received a new contact form submission:</p>\n            <ul>\n                <li><strong>Name:</strong> "
      ++ pyStr (dictGet claim8Members "name" (Json.str "N/A"))
      ++ "</li>\n                <li><strong>Email:</strong> "
      ++ pyStr (dictGet claim8Members "email" (Json.str "N/A"))
      ++ "</li>\n            </ul>\n            <p><strong>Subject:</strong> "
      ++ pyStr (dictGet claim8Members "subject" (Json.str "N/A"))
      ++ "</p>\n            <h3>Message:</h3>\n            <p>"
      ++ pyReplace "x\ny" os_linesep "<br>"
      ++ "</p>\n        </body>\n        </html>\n        " ∧
    (sendEmailParams (Json.obj claim8Members)).get!.textData =
      "\n        New Contact Form Submission:\n        Name: "
      ++ pyStr (dictGet claim8Members "name" (Json.str "N/A"))
      ++ "\n        Email: "
      ++ pyStr (dictGet claim8Members "email" (Json.str "N/A"))
      ++ "\n        Subject: "
      ++ pyStr (dictGet claim8Members "subject" (Json.str "N/A"))
      ++ "\n        Message:\n        "
      ++ "x\ny"
      ++ "\n        " :=
  claim8_rendering_templates (fun _ => SesResult.otherError) () claim8Members
    ((sendEmailParams (Json.obj claim8Members)).get!) "x\ny" rfl rfl

/-- C10: the "N/A" default is applied only to absent keys — a key present
in the object yields its bound value, `null` included; and a message value
that is not a string (in particular a present `null`) makes the field
extraction raise at `message.replace`, so the handler answers 500
"Internal server error." without calling SES. -/
theorem claim10_null_no_default (ses : SendEmailRequest → SesResult) (context : Unit)
    (members : List (String × Json)) :
    (∀ key v dflt, dictGet (members ++ [(key, v)]) key dflt = v) ∧
    ((dictGet members "message" (Json.str "N/A")).isStr = false →
        sendEmailParams (Json.obj members) = none ∧
        lambda_handler ses { body := some (Except.ok (Json.obj members)) } context =
          (internalErrorResponse, [])) ∧
    (dictGet members "message" (Json.str "N/A") = Json.null →
        sendEmailParams (Json.obj members) = none ∧
        lambda_handler ses { body := some (Except.ok (Json.obj members)) } context =
          (internalErrorResponse, [])) := by
  have hmain : (dictGet members "message" (Json.str "N/A")).isStr = false →
      sendEmailParams (Json.obj members) = none ∧
      lambda_handler ses { body := some (Except.ok (Json.obj members)) } context =
        (internalErrorResponse, []) := by
    intro h
    have hnone : sendEmailParams (Json.obj members) = none := by
      cases hm : dictGet members "message" (Json.str "N/A") with
      | str s => rw [hm] at h; exact absurd h (by simp [Json.isStr])
      | null =>
        cases he : dictGet members "email" (Json.str "N/A") <;>
          simp [sendEmailParams, hm, he]
      | bool b =>
        cases he : dictGet members "email" (Json.str "N/A") <;>
          simp [sendEmailParams, hm, he]
      | num n =>
        cases he : dictGet members "email" (Json.str "N/A") <;>
          simp [sendEmailParams, hm, he]
      | arr elems =>
        cases he : dictGet members "email" (Json.str "N/A") <;>
          simp [sendEmailParams, hm, he]
      | obj ms =>
        cases he : dictGet members "email" (Json.str "N/A") <;>
          simp [sendEmailParams, hm, he]
    exact ⟨hnone, lambda_handler_noParams ses _ context hnone⟩
  refine ⟨fun key v dflt => dictGet_last members key v dflt, hmain, ?_⟩
  intro hnull
  refine hmain ?_
  rw [hnull]
  rfl

theorem claim10_null_no_default_witness :
    dictGet ([("name", Json.str "Bob"), ("message", Json.null)] ++ [("subject", Json.str "Hi")])
        "subject" (Json.str "N/A") = Json.str "Hi" ∧
    sendEmailParams (Json.obj [("name", Json.str "Bob"), ("message", Json.null)]) = none ∧
    lambda_handler (fun _ => SesResult.ok "id-6")
        { body := some (Except.ok (Json.obj [("name", Json.str "Bob"), ("message", Json.null)])) }
        () =
      (internalErrorResponse, []) :=
  ⟨(claim10_null_no_default (fun _ => SesResult.ok "id-6") ()
      [("name", Json.str "Bob"), ("message", Json.null)]).1 "subject" (Json.str "Hi")
      (Json.str "N/A"),
   ((claim10_null_no_default (fun _ => SesResult.ok "id-6") ()
      [("name", Json.str "Bob"), ("message", Json.null)]).2.2 rfl).1,
   ((claim10_null_no_default (fun _ => SesResult.ok "id-6") ()
      [("name", Json.str "Bob"), ("message", Json.null)]).2.2 rfl).2⟩

/-- The concrete scenario body of the spec's seventh testable property. -/
def claim7Body : Json :=
  Json.obj [("name", Json.str "Alice"), ("email", Json.str "alice@example.com"),
            ("subject", Json.str "Hi"), ("message", Json.str "Hello\nWorld")]

/-- C7 counterexample: in the concrete scenario the one dispatched request's
plain-text body does not contain the claimed literal character sequence
"Message:" immediately followed by a newline and "Hello" — the text
template indents the interpolated message, so the newline after "Message:"
is followed by eight spaces before "Hello". -/
theorem claim7_scenario_counterexample :
    ((lambda_handler (fun _ => SesResult.ok "abc-123")
        { body := some (Except.ok claim7Body) } ()).2.map
      (fun r => strContains r.textData "Message:\nHello\nWorld")) = [false] := rfl

/-- C7 amended: the concrete scenario yields status 200 with the exact
success body carrying message identifier "abc-123"; the one dispatched
request's plain-text body contains the literal character sequence
"Message:" then a newline, the template's eight spaces of indentation,
and "Hello", a newline, "World"; the message text itself appears verbatim;
and the subject sent to the provider is "New Contact: Hi". -/
theorem claim7_scenario_amended :
    (lambda_handler (fun _ => SesResult.ok "abc-123")
        { body := some (Except.ok claim7Body) } ()).1 =
      { statusCode := 200,
        headers := [("Access-Control-Allow-Origin", "*"), ("Content-Type", "application/json")],
        body := "\x7b\"message\": \"Email sent successfully!\", \"message_id\": \"abc-123\"\x7d" } ∧
    ((lambda_handler (fun _ => SesResult.ok "abc-123")
        { body := some (Except.ok claim7Body) } ()).2.map
      (fun r => strContains r.textData "Message:\n        Hello\nWorld")) = [true] ∧
    ((lambda_handler (fun _ => SesResult.ok "abc-123")
        { body := some (Except.ok claim7Body) } ()).2.map
      (fun r => strContains r.textData "Hello\nWorld")) = [true] ∧
    ((lambda_handler (fun _ => SesResult.ok "abc-123")
        { body := some (Except.ok claim7Body) } ()).2.map SendEmailRequest.subjectData) =
      ["New Contact: Hi"] :=
  ⟨rfl, rfl, rfl, rfl⟩
